import Mathlib

/-!
Device-binding and session enforcement: a shallow embedding.

This file embeds the session/device-binding subsystem of the LMS backend:

* `AuthService.login`, `AuthService.generateTokens`, `AuthService.checkDeviceLimit`,
  `AuthService.refreshAccessToken` (src/unnamed/part_002, the auth service);
* the `validateDevice` middleware (src/src/middlewares/validateDevice.middleware.js);
* the student-liveness portion of `authenticate` (src/src/middlewares/auth.middleware.js);
* `DeviceService.resetStudentDevices` (src/src/services/device.service.js).

The database is modelled as an explicit record of table contents; each supabase
call becomes a pure read or update of that record.  Where a claim is about the
behaviour on storage errors, the affected function takes the query outcome (ok
or error) as an explicit argument, mirroring the `{ data, error }` result pairs
of the client library.  Cryptographic signing/verification of JWTs is modelled
by passing decoded payloads directly (a verified token is its payload); bcrypt
password checking is a boolean input.  Timestamps are natural numbers (seconds).
-/

set_option autoImplicit false

deriving instance DecidableEq for Except

namespace ASAcademy

/-- JS truthiness of an optional string: `undefined`/`null` and `""` are falsy. -/
def jsTruthy : Option String → Bool
  | none => false
  | some s => s ≠ ""

/-- JS `parseInt` on base-10 digit strings: the longest digit prefix, or `none`
(NaN) when the string does not start with a digit.  (Sign and whitespace
handling are irrelevant here: the admin setter only ever stores "1" or "2".) -/
def jsParseInt (s : String) : Option Nat :=
  let ds := s.toList.takeWhile Char.isDigit
  if ds.isEmpty then none
  else some (ds.foldl (fun a c => a * 10 + (c.toNat - 48)) 0)

/-- JS `x >= y` where `y` may be NaN (`none`): any comparison with NaN is false. -/
def jsGe (n : Nat) : Option Nat → Bool
  | some m => n ≥ m
  | none => false

/-- A row of the `users` table (the columns the subsystem reads). -/
structure UserRow where
  id : Nat
  email : String
  role : String
  status : String
deriving Repr, DecidableEq

/-- A row of the `user_devices` table. -/
structure DeviceRow where
  id : Nat
  user_id : Nat
  device_id : String
  device_name : String
  login_count : Nat
  device_changes_count : Nat
  is_blocked : Bool
  last_login_at : Nat
  last_active : Nat
deriving Repr, DecidableEq

/-- A row of the `refresh_tokens` table. -/
structure RefreshRow where
  user_id : Nat
  token : String
  device_id : Option String
  expires_at : Nat
  revoked : Bool
deriving Repr, DecidableEq

/-- The `system_settings` rows the subsystem reads, keyed by `setting_key`;
`none` means the row is absent. -/
structure SystemSettings where
  max_devices_per_student : Option String
  device_tracking_enabled : Option String
deriving Repr, DecidableEq

/-- The database state seen by the subsystem. -/
structure DB where
  users : List UserRow
  user_devices : List DeviceRow
  refresh_tokens : List RefreshRow
  settings : SystemSettings
deriving Repr, DecidableEq

/-- The operational errors of the subsystem (§7 taxonomy). -/
inductive AuthErr where
  | invalidCredentials
  | accountBlocked
  | deviceBlocked
  | deviceLimitExceeded
  | sessionExpired
  | refreshTokenExpired
  | sessionExpiredElsewhere
  | deviceSessionInvalid
deriving Repr, DecidableEq

/-- Decoded JWT payload (access token, and the claims part of a refresh token). -/
structure TokenPayload where
  userId : Nat
  role : String
  deviceId : Option String
deriving Repr, DecidableEq

/-- What `generateTokens` hands back: the access payload, the refresh payload
and the opaque refresh-token value stored in the `refresh_tokens` row. -/
structure LoginTokens where
  access : TokenPayload
  refreshPayload : TokenPayload
  refreshValue : String
deriving Repr, DecidableEq

/-- Result of a supabase query: `ok` with data, or a storage error. -/
inductive QueryOutcome (α : Type) where
  | ok (val : α)
  | err
deriving Repr, DecidableEq

namespace AuthService

/-- Model of `AuthService.checkDeviceLimit` (src/unnamed/part_002 lines 220-305).
Reads `device_tracking_enabled` (enforcement on iff the stored value is the
string "true"); when on, reads `max_devices_per_student` (default 1 when the
row is absent, `parseInt` of the stored string otherwise), fetches the user's
device rows, fails `DeviceBlocked` if the current fingerprint matches a blocked
row, fails `DeviceLimitExceeded` if the fingerprint is unregistered and the row
count reaches the limit, and otherwise updates counters: login counter and
timestamps on the matching row when registered; `device_changes_count` on all
of the user's rows when unregistered and the user already had devices.  Note
the unregistered branch performs no insert into `user_devices`.  The decision
and table update are factored here over the settings and the `user_devices`
table; `checkDeviceLimit` below wraps them into the state transformer. -/
def deviceLimitCheck (settings : SystemSettings) (allDevices : List DeviceRow)
    (now : Nat) (userId : Nat) (currentDeviceId : String) :
    Except AuthErr (List DeviceRow) :=
  let isEnforcementEnabled := settings.device_tracking_enabled == some "true"
  if !isEnforcementEnabled then .ok allDevices
  else
    let maxDevices : Option Nat :=
      match settings.max_devices_per_student with
      | none => some 1
      | some v => jsParseInt v
    let devices := allDevices.filter (fun d => d.user_id == userId)
    if devices.any (fun d => d.device_id == currentDeviceId && d.is_blocked) then
      .error .deviceBlocked
    else
      let isDeviceRegistered := devices.any (fun d => d.device_id == currentDeviceId)
      if !isDeviceRegistered && jsGe devices.length maxDevices then
        .error .deviceLimitExceeded
      else if isDeviceRegistered then
        let prevCount :=
          ((devices.find? (fun d => d.device_id == currentDeviceId)).map
            (fun d => d.login_count)).getD 0
        .ok (allDevices.map (fun d =>
          if d.user_id == userId && d.device_id == currentDeviceId then
            { d with login_count := prevCount + 1, last_login_at := now, last_active := now }
          else d))
      else if devices.length > 0 then
        let prevChanges := ((devices.head?).map (fun d => d.device_changes_count)).getD 0
        .ok (allDevices.map (fun d =>
          if d.user_id == userId then { d with device_changes_count := prevChanges + 1 }
          else d))
      else .ok allDevices

/-- State-transformer form of `checkDeviceLimit`: the decision above, applied to
the settings and device table of the current database state; the only table it
ever writes is `user_devices`. -/
def checkDeviceLimit (st : DB) (now : Nat) (userId : Nat) (currentDeviceId : String) :
    Except AuthErr DB :=
  (deviceLimitCheck st.settings st.user_devices now userId currentDeviceId).map
    (fun ds => { st with user_devices := ds })

/-- The `refresh_tokens` row `generateTokens` inserts: it always stores the
raw `deviceId` and expires 7 days (604800 s) out. -/
def newRefreshRow (userId : Nat) (deviceId : Option String) (now : Nat)
    (tokenValue : String) : RefreshRow :=
  { user_id := userId, token := tokenValue, device_id := deviceId,
    expires_at := now + 604800, revoked := false }

/-- The JWT payload `generateTokens` signs: the device id is embedded only for
students with a truthy device id. -/
def tokenPayloadFor (userId : Nat) (role : String) (deviceId : Option String) :
    TokenPayload :=
  if role == "student" && jsTruthy deviceId then
    { userId := userId, role := role, deviceId := deviceId }
  else
    { userId := userId, role := role, deviceId := none }

/-- Model of `AuthService.generateTokens` (src/unnamed/part_002 lines 119-156).
`tokenValue` stands for the freshly signed refresh-token string. -/
def generateTokens (st : DB) (now : Nat) (userId : Nat) (role : String)
    (deviceId : Option String) (tokenValue : String) : DB × LoginTokens :=
  let payload := tokenPayloadFor userId role deviceId
  let row := newRefreshRow userId deviceId now tokenValue
  ({ st with refresh_tokens := st.refresh_tokens ++ [row] },
   { access := payload, refreshPayload := payload, refreshValue := tokenValue })

/-- The unconditional student revocation step of `login`: delete every
`refresh_tokens` row of the user (src/unnamed/part_002 lines 92-95). -/
def deleteUserRefreshTokens (st : DB) (userId : Nat) : DB :=
  { st with refresh_tokens := st.refresh_tokens.filter (fun r => !(r.user_id == userId)) }

/-- Model of `AuthService.login` (src/unnamed/part_002 lines 59-116).  `passwordValid`
models the bcrypt comparison.  For students with a truthy device id the device
policy check runs; for students all prior refresh rows are then deleted; the
new token pair is minted last. -/
def login (st : DB) (now : Nat) (email : String) (passwordValid : Bool)
    (deviceId : Option String) (tokenValue : String) :
    Except AuthErr (DB × UserRow × LoginTokens) :=
  match st.users.filter (fun u => u.email == email) with
  | [u] =>
    if u.status == "blocked" then .error .accountBlocked
    else if !passwordValid then .error .invalidCredentials
    else
      (if u.role == "student" && jsTruthy deviceId then
        checkDeviceLimit st now u.id (deviceId.getD "")
      else .ok st).bind (fun st1 =>
        let st2 := if u.role == "student" then deleteUserRefreshTokens st1 u.id else st1
        let (st3, toks) := generateTokens st2 now u.id u.role deviceId tokenValue
        .ok (st3, u, toks))
  | _ => .error .invalidCredentials

/-- Model of `AuthService.refreshAccessToken` (src/unnamed/part_002 lines 159-202).
`decoded` is the cryptographically verified refresh-token payload; the row
lookup (`.eq('token', v).eq('revoked', false).single()`) succeeds only when
exactly one non-revoked row holds the presented token value. -/
def refreshAccessToken (st : DB) (now : Nat) (decoded : TokenPayload)
    (tokenValue : String) : Except AuthErr TokenPayload :=
  match st.refresh_tokens.filter (fun r => r.token == tokenValue && r.revoked == false) with
  | [row] =>
    if row.expires_at < now then .error .refreshTokenExpired
    else
      .ok (if decoded.role == "student" && jsTruthy decoded.deviceId then
        { userId := decoded.userId, role := decoded.role, deviceId := decoded.deviceId }
      else
        { userId := decoded.userId, role := decoded.role, deviceId := none })
  | _ => .error .sessionExpired

end AuthService

/-- Live (non-revoked, non-expired) refresh rows of an account — what the
`authenticate` liveness query (`revoked = false`, `expires_at > now`) selects. -/
def liveTokensFor (st : DB) (now : Nat) (userId : Nat) : List RefreshRow :=
  st.refresh_tokens.filter
    (fun r => r.user_id == userId && r.revoked == false && now < r.expires_at)

/-- The user data `authenticate` attaches to the request: DB row fields plus
the decoded JWT claims (`userId`, `role`, `deviceId`). -/
structure ReqUser where
  userId : Nat
  role : String
  deviceId : Option String
deriving Repr, DecidableEq

/-- Verdict of the `validateDevice` middleware: pass the request on, or
terminate it with the `DEVICE_SESSION_INVALID` 403 error. -/
inductive DeviceVerdict where
  | allow
  | deny
deriving Repr, DecidableEq

/-- Set `revoked = true` on every refresh row of the user (the
`update({ revoked: true }).eq('user_id', ...)` write). -/
def revokeUserTokens (st : DB) (userId : Nat) : DB :=
  { st with refresh_tokens := st.refresh_tokens.map (fun r =>
      if r.user_id == userId then { r with revoked := true } else r) }

/-- Model of the `validateDevice` middleware
(src/src/middlewares/validateDevice.middleware.js).
`enforcementQ` is the outcome of the `device_tracking_enabled` `.single()`
read: `ok v` when the row was found with stored value `v`; `err` when the row
is absent or the Registry read failed (the client then hands back a null
`data`, so enforcement reads as disabled and the request is allowed through —
an infrastructure error on this read fails open).  Admin/teacher skip
validation; a student token without a device id passes (legacy); a bound token
with no request fingerprint is denied; a mismatch is denied and revokes every
refresh row of the account. -/
def validateDevice (st : DB) (enforcementQ : QueryOutcome String)
    (user : Option ReqUser) (requestDeviceId : Option String) : DB × DeviceVerdict :=
  match user with
  | none => (st, .allow)
  | some u =>
    if u.role == "admin" || u.role == "teacher" then (st, .allow)
    else if u.role == "student" then
      let settingValue : Option String :=
        match enforcementQ with
        | .ok v => some v
        | .err => none
      let isEnforcementEnabled := settingValue == some "true"
      if !isEnforcementEnabled then (st, .allow)
      else
        let tokenDeviceId := u.deviceId
        if !jsTruthy tokenDeviceId then (st, .allow)
        else if jsTruthy tokenDeviceId && !jsTruthy requestDeviceId then (st, .deny)
        else if jsTruthy tokenDeviceId && jsTruthy requestDeviceId
            && tokenDeviceId != requestDeviceId then
          (revokeUserTokens st u.userId, .deny)
        else (st, .allow)
    else (st, .allow)

/-- Wrapper running `validateDevice` with the enforcement read served (successfully) from the
settings store: the query errs exactly when the row is absent. -/
def runValidateDevice (st : DB) (user : Option ReqUser)
    (requestDeviceId : Option String) : DB × DeviceVerdict :=
  validateDevice st
    (match st.settings.device_tracking_enabled with
     | some v => .ok v
     | none => .err)
    user requestDeviceId

/-- The student-liveness check of `authenticate`
(src/src/middlewares/auth.middleware.js lines 39-51).  `livenessQ` is the
outcome of the live-refresh-row query; the code treats a query error exactly
like an empty result (`if (tokenError || !validTokens || validTokens.length
=== 0)`) and throws the session-expired-elsewhere error — a Registry error
here fails closed. -/
def authenticateLiveness (role : String) (livenessQ : QueryOutcome (List RefreshRow)) :
    Except AuthErr Unit :=
  if role == "student" then
    match livenessQ with
    | .err => .error .sessionExpiredElsewhere
    | .ok validTokens =>
      if validTokens.isEmpty then .error .sessionExpiredElsewhere else .ok ()
  else .ok ()

/-- The liveness check with its query served (successfully) from the store. -/
def runAuthenticateLiveness (st : DB) (now : Nat) (userId : Nat) (role : String) :
    Except AuthErr Unit :=
  authenticateLiveness role (.ok (liveTokensFor st now userId))

/-- Errors of `DeviceService.resetStudentDevices`. -/
inductive ResetErr where
  | userNotFound
  | notStudentAccount
  | resetFailed
deriving Repr, DecidableEq

namespace DeviceService

/-- Model of `DeviceService.resetStudentDevices` (src/src/services/device.service.js
lines 126-199).  The three boolean flags inject storage errors into the three
writes.  Step 1 (device deletion) aborts with a 500 on error; step 2 (refresh
row deletion) and step 3 (status reset) log and continue on error; the audit
write swallows its own failures.  On success the call returns the final state
(the JS returns `{ success: true, ... }`). -/
def resetStudentDevices (st : DB) (userId : Nat)
    (deviceDeleteFails tokenDeleteFails statusUpdateFails : Bool) :
    Except ResetErr DB :=
  match st.users.filter (fun u => u.id == userId) with
  | [u] =>
    if !(u.role == "student") then .error .notStudentAccount
    else if deviceDeleteFails then .error .resetFailed
    else
      let st1 := { st with user_devices :=
        st.user_devices.filter (fun d => !(d.user_id == userId)) }
      let st2 := if tokenDeleteFails then st1
        else { st1 with refresh_tokens :=
          st1.refresh_tokens.filter (fun r => !(r.user_id == userId)) }
      let st3 := if statusUpdateFails then st2
        else { st2 with users := st2.users.map (fun w =>
          if w.id == userId then { w with status := "active" } else w) }
      .ok st3
  | _ => .error .userNotFound

end DeviceService

/-!
Concrete states used to evaluate the model on explicit inputs: a single
student account (id 1), the device limit set to 1, and enforcement on, off,
or stored as a string other than "true".
-/

def sampleStudent : UserRow :=
  { id := 1, email := "s@example.com", role := "student", status := "active" }

def settingsOn : SystemSettings :=
  { max_devices_per_student := some "1", device_tracking_enabled := some "true" }

def settingsOff : SystemSettings :=
  { max_devices_per_student := some "1", device_tracking_enabled := some "false" }

def settingsOther : SystemSettings :=
  { max_devices_per_student := some "1", device_tracking_enabled := some "TRUE" }

def deviceF0 : DeviceRow :=
  { id := 7, user_id := 1, device_id := "fp-zero", device_name := "Windows PC",
    login_count := 5, device_changes_count := 0, is_blocked := false,
    last_login_at := 0, last_active := 0 }

def blockedDevice : DeviceRow :=
  { id := 8, user_id := 1, device_id := "fp-one", device_name := "Windows PC",
    login_count := 3, device_changes_count := 0, is_blocked := true,
    last_login_at := 0, last_active := 0 }

/-- A student with no registered devices and no sessions, enforcement on. -/
def dbFreshStudent : DB :=
  { users := [sampleStudent], user_devices := [], refresh_tokens := [],
    settings := settingsOn }

/-- The token pair a login of `dbFreshStudent` from fingerprint "fp-one" mints. -/
def sampleTokens : LoginTokens :=
  { access := { userId := 1, role := "student", deviceId := some "fp-one" },
    refreshPayload := { userId := 1, role := "student", deviceId := some "fp-one" },
    refreshValue := "tok-one" }

/-- The state `dbFreshStudent` reaches after that login. -/
def dbAfterFirstLogin : DB :=
  { users := [sampleStudent], user_devices := [],
    refresh_tokens := [AuthService.newRefreshRow 1 (some "fp-one") 0 "tok-one"],
    settings := settingsOn }

/-- A student already at the device cap (1 device), enforcement switched off. -/
def dbAtCapOff : DB :=
  { users := [sampleStudent], user_devices := [deviceF0], refresh_tokens := [],
    settings := settingsOff }

/-- A student at the device cap with the enforcement value stored as "TRUE". -/
def dbAtCapOther : DB :=
  { users := [sampleStudent], user_devices := [deviceF0], refresh_tokens := [],
    settings := settingsOther }

/-- A student whose registered fingerprint "fp-one" an admin has blocked. -/
def dbBlockedDevice : DB :=
  { users := [sampleStudent], user_devices := [blockedDevice], refresh_tokens := [],
    settings := settingsOn }

/-- A student with one device and one live session, about to be reset. -/
def dbForReset : DB :=
  { users := [sampleStudent], user_devices := [deviceF0],
    refresh_tokens := [AuthService.newRefreshRow 1 (some "fp-zero") 0 "tok-zero"],
    settings := settingsOn }

def sampleReqUser : ReqUser :=
  { userId := 1, role := "student", deviceId := some "fp-one" }

/-!
Helper lemmas shared by the claim theorems.
-/

/-- Filtering by `p` after keeping only the elements violating `p` is empty. -/
theorem filter_after_filter_not {α : Type} (p : α → Bool) (l : List α) :
    (l.filter (fun a => !(p a))).filter p = [] := by
  rw [List.filter_filter]
  exact List.filter_eq_nil_iff.mpr (fun a _ => by by_cases h : p a <;> simp [h])

/-- Filtering commutes with a map that does not change the filter predicate. -/
theorem filter_map_comm {α : Type} (f : α → α) (p : α → Bool)
    (hpf : ∀ a, p (f a) = p a) (l : List α) :
    (l.map f).filter p = (l.filter p).map f := by
  induction l with
  | nil => rfl
  | cons a t ih =>
    simp only [List.map_cons, List.filter_cons, hpf]
    by_cases h : p a
    · simp [h, ih]
    · simp [h, ih]

/-- After deleting every refresh row of `uid` and appending one fresh row, at
most one row survives the liveness filter for `uid`, whatever the query time. -/
theorem length_filter_delete_append (l : List RefreshRow) (uid : Nat) (row : RefreshRow)
    (qnow : Nat) :
    (((l.filter (fun r => !(r.user_id == uid))) ++ [row]).filter
      (fun r => r.user_id == uid && r.revoked == false && qnow < r.expires_at)).length ≤ 1 := by
  rw [List.filter_append, List.filter_filter]
  have h0 : (l.filter fun a =>
      (a.user_id == uid && a.revoked == false && qnow < a.expires_at) &&
        !(a.user_id == uid)) = [] := by
    refine List.filter_eq_nil_iff.mpr (fun a _ => ?_)
    by_cases hb : a.user_id = uid <;> simp [hb]
  rw [h0]
  simpa using List.length_filter_le _ [row]

/-- A successful `checkDeviceLimit` touches only the `user_devices` table. -/
theorem checkDeviceLimit_ok_frame (st st' : DB) (now uid : Nat) (cur : String)
    (h : AuthService.checkDeviceLimit st now uid cur = .ok st') :
    st'.users = st.users ∧ st'.refresh_tokens = st.refresh_tokens ∧
      st'.settings = st.settings := by
  unfold AuthService.checkDeviceLimit at h
  cases hd : AuthService.deviceLimitCheck st.settings st.user_devices now uid cur with
  | error e => rw [hd] at h; exact absurd h (by simp [Except.map])
  | ok ds =>
    rw [hd] at h
    simp only [Except.map, Except.ok.injEq] at h
    subst h
    exact ⟨rfl, rfl, rfl⟩

/-- With enforcement not stored as "true", the device check is a no-op. -/
theorem deviceLimitCheck_disabled (settings : SystemSettings) (l : List DeviceRow)
    (now uid : Nat) (cur : String)
    (h : settings.device_tracking_enabled ≠ some "true") :
    AuthService.deviceLimitCheck settings l now uid cur = .ok l := by
  unfold AuthService.deviceLimitCheck
  simp [h]

/-- With enforcement not stored as "true", `checkDeviceLimit` admits and
leaves the state untouched. -/
theorem checkDeviceLimit_disabled (st : DB) (now uid : Nat) (cur : String)
    (h : st.settings.device_tracking_enabled ≠ some "true") :
    AuthService.checkDeviceLimit st now uid cur = .ok st := by
  unfold AuthService.checkDeviceLimit
  rw [deviceLimitCheck_disabled _ _ _ _ _ h]
  rfl

/-- With enforcement on, a blocked row matching the current fingerprint makes
the device check fail `DeviceBlocked`, whatever else the table holds. -/
theorem deviceLimitCheck_blocked (settings : SystemSettings) (l : List DeviceRow)
    (now uid : Nat) (cur : String)
    (hen : settings.device_tracking_enabled = some "true")
    (d : DeviceRow) (hd : d ∈ l) (hdu : d.user_id = uid)
    (hdc : d.device_id = cur) (hdb : d.is_blocked = true) :
    AuthService.deviceLimitCheck settings l now uid cur = .error .deviceBlocked := by
  unfold AuthService.deviceLimitCheck
  have hany : (l.filter (fun w => w.user_id == uid)).any
      (fun w => w.device_id == cur && w.is_blocked) = true :=
    List.any_eq_true.mpr ⟨d, List.mem_filter.mpr ⟨hd, by simp [hdu]⟩, by simp [hdc, hdb]⟩
  simp [hen, hany]

/-- A storage error on the enforcement read makes `validateDevice` pass the
request through unchanged, for every user and request fingerprint. -/
theorem validateDevice_err_allows (st : DB) (u : ReqUser) (reqId : Option String) :
    validateDevice st .err (some u) reqId = (st, .allow) := by
  unfold validateDevice
  by_cases h1 : (u.role == "admin" || u.role == "teacher") = true
  · simp [h1]
  · by_cases h2 : (u.role == "student") = true <;> simp [h1, h2]

/-- With the enforcement setting anything but "true", the validator allows
every request without touching the state. -/
theorem runValidateDevice_disabled_allows (st : DB)
    (hdis : st.settings.device_tracking_enabled ≠ some "true")
    (user : Option ReqUser) (reqId : Option String) :
    runValidateDevice st user reqId = (st, .allow) := by
  unfold runValidateDevice validateDevice
  cases user with
  | none => simp
  | some u =>
    cases hset : st.settings.device_tracking_enabled with
    | none =>
      by_cases h1 : (u.role == "admin" || u.role == "teacher") = true
      · simp [h1]
      · by_cases h2 : (u.role == "student") = true <;> simp [h1, h2]
    | some v =>
      have hv : ¬ v = "true" := by
        intro hvv; exact hdis (by rw [hset, hvv])
      by_cases h1 : (u.role == "admin" || u.role == "teacher") = true
      · simp [h1]
      · by_cases h2 : (u.role == "student") = true <;> simp [h1, h2, hv]

/-- With enforcement on and a device-bound student token, a missing request
fingerprint is denied, and a mismatched one is denied and revokes the
account's refresh rows. -/
theorem validateDevice_policy_closed (st : DB) (u : ReqUser) (reqId : Option String)
    (hrole : u.role = "student") (htok : jsTruthy u.deviceId = true) :
    (jsTruthy reqId = false →
      validateDevice st (.ok "true") (some u) reqId = (st, .deny)) ∧
    (jsTruthy reqId = true → u.deviceId ≠ reqId →
      validateDevice st (.ok "true") (some u) reqId = (revokeUserTokens st u.userId, .deny)) := by
  constructor
  · intro hreq
    unfold validateDevice
    simp [hrole, htok, hreq]
  · intro hreq hne
    unfold validateDevice
    simp [hrole, htok, hreq, hne]

/-- A device-bound student request whose fingerprint matches the token claim
is allowed, with the state untouched. -/
theorem runValidateDevice_student_allow (st : DB) (uid : Nat) (fp : String)
    (hen : st.settings.device_tracking_enabled = some "true") (hfp : fp ≠ "") :
    runValidateDevice st (some { userId := uid, role := "student", deviceId := some fp })
      (some fp) = (st, .allow) := by
  unfold runValidateDevice validateDevice
  rw [hen]
  simp [jsTruthy, hfp]

/-- A device-bound student request with a different fingerprint is denied and
revokes every refresh row of the account. -/
theorem runValidateDevice_student_mismatch (st : DB) (uid : Nat) (fp req : String)
    (hen : st.settings.device_tracking_enabled = some "true")
    (hfp : fp ≠ "") (hreq : req ≠ "") (hne : fp ≠ req) :
    runValidateDevice st (some { userId := uid, role := "student", deviceId := some fp })
      (some req) = (revokeUserTokens st uid, .deny) := by
  unfold runValidateDevice validateDevice
  rw [hen]
  simp [jsTruthy, hfp, hreq, hne]

/-!
Claim theorems.
-/

/-- C1 (single-session invariant): whenever a login completes successfully for
a student account, at most one live (non-revoked, non-expired) refresh row
exists for that account at any query time — the login deleted every prior
refresh row of the student before inserting the single new one, whether or not
the device was already known, so the bound holds after every sequence of
completed logins. -/
theorem single_session_invariant
    (st : DB) (now qnow : Nat) (email : String) (passwordValid : Bool)
    (dev : Option String) (tv : String) (st' : DB) (u : UserRow) (toks : LoginTokens)
    (hlog : AuthService.login st now email passwordValid dev tv = .ok (st', u, toks))
    (hrole : u.role = "student") :
    (liveTokensFor st' qnow u.id).length ≤ 1 := by
  unfold AuthService.login at hlog
  split at hlog
  case h_2 => exact absurd hlog (by simp)
  case h_1 u' heq =>
    split at hlog
    · exact absurd hlog (by simp)
    · split at hlog
      · exact absurd hlog (by simp)
      · cases hcdl : (if u'.role == "student" && jsTruthy dev then
            AuthService.checkDeviceLimit st now u'.id (dev.getD "") else .ok st) with
        | error e => rw [hcdl] at hlog; exact absurd hlog (by simp [Except.bind])
        | ok st1 =>
          rw [hcdl] at hlog
          simp only [Except.bind, AuthService.generateTokens, Except.ok.injEq,
            Prod.mk.injEq] at hlog
          obtain ⟨hst', hu, -⟩ := hlog
          subst hu
          rw [hrole] at hst'
          simp only [beq_self_eq_true, if_pos,
            AuthService.deleteUserRefreshTokens] at hst'
          subst hst'
          unfold liveTokensFor
          exact length_filter_delete_append st1.refresh_tokens u'.id _ qnow

/-- Witness for C1: the concrete first login of the sample student. -/
theorem single_session_invariant_witness :
    (liveTokensFor dbAfterFirstLogin 0 sampleStudent.id).length ≤ 1 :=
  single_session_invariant dbFreshStudent 0 0 "s@example.com" true (some "fp-one")
    "tok-one" dbAfterFirstLogin sampleStudent sampleTokens (by decide) (by decide)

/-- C2 (code bug): a student login from a new fingerprint, admitted with
enforcement enabled and the account under its device limit, creates no
DeviceRecord — the device table is still empty right after the login
completes.  The new-device branch of `checkDeviceLimit` performs no insert
(despite its "Update or insert device record" comment) and the `trackDevice`
upsert middleware is not mounted on the login route. -/
theorem login_new_fingerprint_creates_no_device_record :
    (AuthService.login dbFreshStudent 0 "s@example.com" true (some "fp-one")
      "tok-one").isOk = true ∧
    (AuthService.login dbFreshStudent 0 "s@example.com" true (some "fp-one")
      "tok-one").map (fun r => r.1.user_devices) = .ok [] := by
  decide

/-- C5 (code bug): with `maxDevicesPerStudent = 1` and enforcement enabled, a
student's first login from "fp-one" is admitted without registering any
device, so a second login from the distinct unblocked fingerprint "fp-two" is
also admitted instead of failing `DeviceLimitExceeded`. -/
theorem second_new_fingerprint_login_admitted :
    AuthService.login dbFreshStudent 0 "s@example.com" true (some "fp-one") "tok-one"
      = .ok (dbAfterFirstLogin, sampleStudent, sampleTokens) ∧
    (AuthService.login dbAfterFirstLogin 1 "s@example.com" true (some "fp-two")
      "tok-two").isOk = true ∧
    (AuthService.login dbAfterFirstLogin 1 "s@example.com" true (some "fp-two")
      "tok-two") ≠ .error .deviceLimitExceeded := by
  decide

/-- C3 counterexample: in the per-request liveness check, a Registry storage
error is not failed open — the request is rejected with the session-expired
error, exactly like a policy failure, contradicting the claim that
infrastructure errors fail open in both validator checks. -/
theorem liveness_registry_error_fails_closed :
    authenticateLiveness "student" .err = .error .sessionExpiredElsewhere ∧
    authenticateLiveness "student" .err ≠ .ok () := by
  decide

/-- C3 (amended): infrastructure errors from the Registry fail open only in
the fingerprint-consistency middleware (the request is allowed, state
untouched); policy failures there — missing or mismatched request fingerprint
against a bound student token — always fail closed, the mismatch also revoking
the account's refresh rows; and in the per-request liveness check both a
Registry error and an empty result fail closed with the session-expired
error. -/
theorem validator_fail_open_scope
    (st : DB) (u : ReqUser) (reqId : Option String)
    (hrole : u.role = "student") (htok : jsTruthy u.deviceId = true) :
    (validateDevice st .err (some u) reqId = (st, .allow)) ∧
    (jsTruthy reqId = false →
      validateDevice st (.ok "true") (some u) reqId = (st, .deny)) ∧
    (jsTruthy reqId = true → u.deviceId ≠ reqId →
      validateDevice st (.ok "true") (some u) reqId
        = (revokeUserTokens st u.userId, .deny)) ∧
    (authenticateLiveness u.role .err = .error .sessionExpiredElsewhere) ∧
    (authenticateLiveness u.role (.ok []) = .error .sessionExpiredElsewhere) := by
  obtain ⟨h1, h2⟩ := validateDevice_policy_closed st u reqId hrole htok
  refine ⟨validateDevice_err_allows st u reqId, h1, h2, ?_, ?_⟩
  · unfold authenticateLiveness
    simp [hrole]
  · unfold authenticateLiveness
    simp [hrole]

/-- Witness for C3's amended theorem at concrete inputs. -/
theorem validator_fail_open_scope_witness :
    (validateDevice dbAfterFirstLogin .err (some sampleReqUser) (some "fp-two")
      = (dbAfterFirstLogin, .allow)) ∧
    (validateDevice dbAfterFirstLogin (.ok "true") (some sampleReqUser) (some "fp-two")
      = (revokeUserTokens dbAfterFirstLogin 1, .deny)) ∧
    (authenticateLiveness sampleReqUser.role .err = .error .sessionExpiredElsewhere) :=
  ⟨(validator_fail_open_scope dbAfterFirstLogin sampleReqUser (some "fp-two")
      (by decide) (by decide)).1,
   (validator_fail_open_scope dbAfterFirstLogin sampleReqUser (some "fp-two")
      (by decide) (by decide)).2.2.1 (by decide) (by decide),
   (validator_fail_open_scope dbAfterFirstLogin sampleReqUser (some "fp-two")
      (by decide) (by decide)).2.2.2.1⟩

/-- C6 (kill switch): with enforcement disabled, the device check admits with
the state untouched for every device table — including at-cap and blocked
ones, so no count, block or record check happens — and a student login is
admitted unconditionally. -/
theorem enforcement_kill_switch
    (st : DB) (now uid : Nat) (cur : String) (email : String)
    (dev : Option String) (tv : String) (u : UserRow)
    (hdis : st.settings.device_tracking_enabled ≠ some "true")
    (hu : st.users.filter (fun w => w.email == email) = [u])
    (hst : u.status ≠ "blocked") :
    AuthService.checkDeviceLimit st now uid cur = .ok st ∧
    (AuthService.login st now email true dev tv).isOk = true := by
  refine ⟨checkDeviceLimit_disabled st now uid cur hdis, ?_⟩
  unfold AuthService.login
  rw [hu]
  by_cases hs : (u.role == "student" && jsTruthy dev) = true
  · simp [hst, hs, checkDeviceLimit_disabled st now u.id (dev.getD "") hdis,
      Except.bind, Except.isOk, Except.toBool]
  · simp [hst, hs, Except.bind, Except.isOk, Except.toBool]

/-- Witness for C6: an account at its device cap still logs in from a
brand-new fingerprint when enforcement is off. -/
theorem enforcement_kill_switch_witness :
    AuthService.checkDeviceLimit dbAtCapOff 0 1 "fp-new" = .ok dbAtCapOff ∧
    (AuthService.login dbAtCapOff 0 "s@example.com" true (some "fp-new")
      "tok-one").isOk = true :=
  enforcement_kill_switch dbAtCapOff 0 1 "fp-new" "s@example.com" (some "fp-new")
    "tok-one" sampleStudent (by decide) (by decide) (by decide)

/-- C7 (blocked device precedence): with enforcement enabled, a fingerprint
matching a DeviceRecord blocked by an admin makes both the device check and
the whole student login fail `DeviceBlocked`, whatever else the device table
holds — in particular even though the fingerprint is registered and would
otherwise pass as a known device, and before any count check can decide. -/
theorem blocked_device_precedence
    (st : DB) (now : Nat) (email cur tv : String) (u : UserRow)
    (hu : st.users.filter (fun w => w.email == email) = [u])
    (hst : u.status ≠ "blocked") (hrole : u.role = "student") (hcur : cur ≠ "")
    (hen : st.settings.device_tracking_enabled = some "true")
    (d : DeviceRow) (hd : d ∈ st.user_devices) (hdu : d.user_id = u.id)
    (hdc : d.device_id = cur) (hdb : d.is_blocked = true) :
    AuthService.checkDeviceLimit st now u.id cur = .error .deviceBlocked ∧
    AuthService.login st now email true (some cur) tv = .error .deviceBlocked := by
  have hchk : AuthService.checkDeviceLimit st now u.id cur = .error .deviceBlocked := by
    unfold AuthService.checkDeviceLimit
    rw [deviceLimitCheck_blocked st.settings st.user_devices now u.id cur hen
      d hd hdu hdc hdb]
    rfl
  refine ⟨hchk, ?_⟩
  unfold AuthService.login
  rw [hu]
  have hcond : (u.role == "student" && jsTruthy (some cur)) = true := by
    simp [hrole, jsTruthy, hcur]
  simp [hst, hcond, hchk, Except.bind]

/-- Witness for C7: the sample student's registered-and-blocked fingerprint. -/
theorem blocked_device_precedence_witness :
    AuthService.checkDeviceLimit dbBlockedDevice 0 sampleStudent.id "fp-one"
      = .error .deviceBlocked ∧
    AuthService.login dbBlockedDevice 0 "s@example.com" true (some "fp-one")
      "tok-one" = .error .deviceBlocked :=
  blocked_device_precedence dbBlockedDevice 0 "s@example.com" "fp-one" "tok-one"
    sampleStudent (by decide) (by decide) (by decide) (by decide) (by decide)
    blockedDevice (by decide) (by decide) (by decide) (by decide)

/-- C9 (default-off enforcement): if the enforcement setting row is absent, or
stores any string other than "true", the login-time device check is a no-op
and the per-request device validator allows every request with the state
untouched — the device-binding subsystem is off until explicitly enabled. -/
theorem enforcement_default_off (st : DB)
    (hdis : st.settings.device_tracking_enabled ≠ some "true") :
    (∀ now uid cur, AuthService.checkDeviceLimit st now uid cur = .ok st) ∧
    (∀ user reqId, runValidateDevice st user reqId = (st, .allow)) :=
  ⟨fun now uid cur => checkDeviceLimit_disabled st now uid cur hdis,
   fun user reqId => runValidateDevice_disabled_allows st hdis user reqId⟩

/-- Witness for C9: the stored value "TRUE" does not enable enforcement. -/
theorem enforcement_default_off_witness :
    AuthService.checkDeviceLimit dbAtCapOther 0 1 "fp-new" = .ok dbAtCapOther ∧
    runValidateDevice dbAtCapOther (some sampleReqUser) (some "fp-two")
      = (dbAtCapOther, .allow) :=
  ⟨(enforcement_default_off dbAtCapOther (by decide)).1 0 1 "fp-new",
   (enforcement_default_off dbAtCapOther (by decide)).2 (some sampleReqUser)
     (some "fp-two")⟩

/-- C10 (no-fingerprint login path): a student login without a truthy
fingerprint skips the device policy check entirely (device table untouched),
still deletes every prior refresh row of the account, stores the raw (absent)
device id on the new refresh row, mints credentials carrying no fingerprint
claim, and such a claim-less credential later passes the device validator with
no fingerprint comparison, whatever the state and request fingerprint. -/
theorem no_fingerprint_login_path
    (st : DB) (now : Nat) (email tv : String) (dev : Option String) (u : UserRow)
    (hu : st.users.filter (fun w => w.email == email) = [u])
    (hst : u.status ≠ "blocked") (hrole : u.role = "student")
    (hdev : jsTruthy dev = false) :
    AuthService.login st now email true dev tv =
      .ok ({ st with refresh_tokens :=
          st.refresh_tokens.filter (fun r => !(r.user_id == u.id)) ++
            [AuthService.newRefreshRow u.id dev now tv] }, u,
        { access := { userId := u.id, role := u.role, deviceId := none },
          refreshPayload := { userId := u.id, role := u.role, deviceId := none },
          refreshValue := tv }) ∧
    (∀ (st2 : DB) (reqId : Option String),
      runValidateDevice st2 (some { userId := u.id, role := u.role, deviceId := none })
        reqId = (st2, .allow)) := by
  constructor
  · unfold AuthService.login
    rw [hu]
    have hcond : (u.role == "student" && jsTruthy dev) = false := by simp [hdev]
    simp [hst, hcond, hrole, Except.bind, AuthService.generateTokens,
      AuthService.tokenPayloadFor, AuthService.deleteUserRefreshTokens, hdev]
  · intro st2 reqId
    unfold runValidateDevice validateDevice
    have hna : (u.role == "admin" || u.role == "teacher") = false := by simp [hrole]
    cases hset : st2.settings.device_tracking_enabled with
    | none => simp [hna, hrole, jsTruthy]
    | some v =>
      by_cases hv : v = "true" <;> simp [hna, hrole, hv, jsTruthy]

/-- Witness for C10: a concrete fingerprint-less login and a later validator
pass under active enforcement. -/
theorem no_fingerprint_login_path_witness :
    AuthService.login dbFreshStudent 0 "s@example.com" true none "tok-one" =
      .ok ({ dbFreshStudent with refresh_tokens :=
          dbFreshStudent.refresh_tokens.filter (fun r => !(r.user_id == 1)) ++
            [AuthService.newRefreshRow sampleStudent.id none 0 "tok-one"] },
        sampleStudent,
        { access := { userId := sampleStudent.id, role := sampleStudent.role, deviceId := none },
          refreshPayload := { userId := sampleStudent.id, role := sampleStudent.role, deviceId := none },
          refreshValue := "tok-one" }) ∧
    runValidateDevice dbAtCapOther
      (some { userId := sampleStudent.id, role := sampleStudent.role, deviceId := none })
      (some "fp-two") = (dbAtCapOther, .allow) :=
  ⟨(no_fingerprint_login_path dbFreshStudent 0 "s@example.com" "tok-one" none
      sampleStudent (by decide) (by decide) (by decide) (by decide)).1,
   (no_fingerprint_login_path dbFreshStudent 0 "s@example.com" "tok-one" none
      sampleStudent (by decide) (by decide) (by decide) (by decide)).2
     dbAtCapOther (some "fp-two")⟩

/-- C8 (reset idempotence): resetting a student's devices twice in a row
succeeds both times and leaves the account with zero DeviceRecords and zero
RefreshCredentials after each call; moreover, once device-record deletion has
succeeded, a failure in refresh-token deletion or in the account-status reset
does not abort the call. -/
theorem reset_devices_idempotent
    (st : DB) (uid : Nat) (u : UserRow)
    (hu : st.users.filter (fun w => w.id == uid) = [u])
    (hrole : u.role = "student") :
    (∃ stA stB,
      DeviceService.resetStudentDevices st uid false false false = .ok stA ∧
      DeviceService.resetStudentDevices stA uid false false false = .ok stB ∧
      stA.user_devices.filter (fun d => d.user_id == uid) = [] ∧
      stA.refresh_tokens.filter (fun r => r.user_id == uid) = [] ∧
      stB.user_devices.filter (fun d => d.user_id == uid) = [] ∧
      stB.refresh_tokens.filter (fun r => r.user_id == uid) = []) ∧
    (∀ tokenDeleteFails statusUpdateFails : Bool,
      (DeviceService.resetStudentDevices st uid false tokenDeleteFails
        statusUpdateFails).isOk = true) := by
  have hid : u.id = uid := by
    have hm : u ∈ st.users.filter (fun w => w.id == uid) := by
      rw [hu]; exact List.mem_singleton_self u
    simpa using (List.mem_filter.mp hm).2
  have hpf : ∀ w : UserRow,
      ((if w.id == uid then { w with status := "active" } else w).id == uid)
        = (w.id == uid) := by
    intro w
    by_cases h : (w.id == uid) = true
    · rw [if_pos h]
    · rw [if_neg h]
  set fA : UserRow → UserRow :=
    fun w => if w.id == uid then { w with status := "active" } else w with hfA
  have e1 : DeviceService.resetStudentDevices st uid false false false = .ok
      { users := st.users.map fA,
        user_devices := st.user_devices.filter (fun d => !(d.user_id == uid)),
        refresh_tokens := st.refresh_tokens.filter (fun r => !(r.user_id == uid)),
        settings := st.settings } := by
    unfold DeviceService.resetStudentDevices
    rw [hu]
    simp [hrole]
    intro a _
    rw [hfA]
    by_cases h : a.id = uid
    · simp [h]
    · simp [h]
  have hfm : (st.users.map fA).filter (fun w => w.id == uid) = [fA u] := by
    rw [filter_map_comm fA _ hpf, hu, List.map_singleton]
  have hfu : fA u = { u with status := "active" } := by
    rw [hfA]
    simp [hid]
  have e2 : DeviceService.resetStudentDevices
      { users := st.users.map fA,
        user_devices := st.user_devices.filter (fun d => !(d.user_id == uid)),
        refresh_tokens := st.refresh_tokens.filter (fun r => !(r.user_id == uid)),
        settings := st.settings } uid false false false = .ok
      { users := (st.users.map fA).map fA,
        user_devices := (st.user_devices.filter (fun d => !(d.user_id == uid))).filter
          (fun d => !(d.user_id == uid)),
        refresh_tokens := (st.refresh_tokens.filter (fun r => !(r.user_id == uid))).filter
          (fun r => !(r.user_id == uid)),
        settings := st.settings } := by
    unfold DeviceService.resetStudentDevices
    dsimp only
    rw [hfm, hfu]
    simp [hrole]
    intro a _
    by_cases h : (fA a).id = uid
    · simp [hfA, h]
    · simp [hfA, h]
  refine ⟨⟨_, _, e1, e2, ?_, ?_, ?_, ?_⟩, ?_⟩
  · exact filter_after_filter_not _ st.user_devices
  · exact filter_after_filter_not _ st.refresh_tokens
  · exact filter_after_filter_not _ _
  · exact filter_after_filter_not _ _
  · intro tf sf
    unfold DeviceService.resetStudentDevices
    rw [hu]
    cases tf <;> cases sf <;> simp [hrole, Except.isOk, Except.toBool]

/-- Witness for C8: a concrete double reset, and a reset whose secondary
cleanups both fail yet still returns success. -/
theorem reset_devices_idempotent_witness :
    (∃ stA stB,
      DeviceService.resetStudentDevices dbForReset 1 false false false = .ok stA ∧
      DeviceService.resetStudentDevices stA 1 false false false = .ok stB ∧
      stA.user_devices.filter (fun d => d.user_id == 1) = [] ∧
      stA.refresh_tokens.filter (fun r => r.user_id == 1) = [] ∧
      stB.user_devices.filter (fun d => d.user_id == 1) = [] ∧
      stB.refresh_tokens.filter (fun r => r.user_id == 1) = []) ∧
    (DeviceService.resetStudentDevices dbForReset 1 false true true).isOk = true :=
  ⟨(reset_devices_idempotent dbForReset 1 sampleStudent (by decide) (by decide)).1,
   (reset_devices_idempotent dbForReset 1 sampleStudent (by decide) (by decide)).2
     true true⟩

/-- C4 (fingerprint binding round-trip): after a student logs in from
fingerprint `fpF` (enforcement on, fresh token value), presenting the minted
credential with request fingerprint `fpF` passes the device check with the
state untouched; presenting it with a different fingerprint `fpG` is denied
and revokes every refresh row of the account; and a subsequent refresh attempt
with the original refresh credential then fails `SessionExpired` at any time,
even though the token still verifies cryptographically (its decoded payload is
presented unchanged). -/
theorem fingerprint_binding_round_trip
    (st : DB) (now qnow : Nat) (email tv fpF fpG : String) (u : UserRow)
    (st1 : DB) (toks : LoginTokens)
    (hu : st.users.filter (fun w => w.email == email) = [u])
    (hrole : u.role = "student")
    (hen : st.settings.device_tracking_enabled = some "true")
    (hF : fpF ≠ "") (hG : fpG ≠ "") (hne : fpF ≠ fpG)
    (hfresh : ∀ r ∈ st.refresh_tokens, r.token ≠ tv)
    (hlog : AuthService.login st now email true (some fpF) tv = .ok (st1, u, toks)) :
    (runValidateDevice st1
      (some { userId := u.id, role := u.role, deviceId := toks.access.deviceId })
      (some fpF) = (st1, .allow)) ∧
    (runValidateDevice st1
      (some { userId := u.id, role := u.role, deviceId := toks.access.deviceId })
      (some fpG) = (revokeUserTokens st1 u.id, .deny)) ∧
    (AuthService.refreshAccessToken (revokeUserTokens st1 u.id) qnow
      toks.refreshPayload toks.refreshValue = .error .sessionExpired) := by
  have hjs : jsTruthy (some fpF) = true := by simp [jsTruthy, hF]
  have hrb : (u.role == "student") = true := by simp [hrole]
  unfold AuthService.login at hlog
  rw [hu] at hlog
  dsimp only at hlog
  have hcond : (u.role == "student" && jsTruthy (some fpF)) = true := by
    rw [hrb, hjs]; rfl
  by_cases hstatus : (u.status == "blocked") = true
  · rw [if_pos hstatus] at hlog
    exact absurd hlog (by simp)
  · rw [if_neg hstatus, if_neg (by decide : ¬ ((!true) = true)), if_pos hcond] at hlog
    cases hcdl : AuthService.checkDeviceLimit st now u.id ((some fpF).getD "") with
    | error e =>
      rw [hcdl] at hlog
      exact absurd hlog (by simp [Except.bind])
    | ok stA =>
      obtain ⟨-, hrt, hset⟩ := checkDeviceLimit_ok_frame st stA now u.id _ hcdl
      rw [hcdl] at hlog
      simp only [Except.bind, hrb, hjs, Bool.true_and, if_true,
        AuthService.generateTokens, AuthService.tokenPayloadFor,
        AuthService.deleteUserRefreshTokens, Except.ok.injEq, Prod.mk.injEq] at hlog
      obtain ⟨hst1, -, htoks⟩ := hlog
      subst hst1
      subst htoks
      refine ⟨?_, ?_, ?_⟩
      · rw [hrole]
        exact runValidateDevice_student_allow _ u.id fpF (by rw [hset]; exact hen) hF
      · rw [hrole]
        exact runValidateDevice_student_mismatch _ u.id fpF fpG
          (by rw [hset]; exact hen) hF hG hne
      · unfold AuthService.refreshAccessToken revokeUserTokens
        dsimp only
        have hnil : (((stA.refresh_tokens.filter (fun r => !(r.user_id == u.id)) ++
            [AuthService.newRefreshRow u.id (some fpF) now tv]).map (fun r =>
              if r.user_id == u.id then { r with revoked := true } else r)).filter
            (fun r => r.token == tv && r.revoked == false)) = [] := by
          rw [List.map_append, List.filter_append]
          have h1 : (((stA.refresh_tokens.filter (fun r => !(r.user_id == u.id))).map
              (fun r => if r.user_id == u.id then { r with revoked := true } else r)).filter
              (fun r => r.token == tv && r.revoked == false)) = [] := by
            refine List.filter_eq_nil_iff.mpr ?_
            intro x hx
            obtain ⟨r, hrmem, hrx⟩ := List.mem_map.mp hx
            obtain ⟨hrin, hq⟩ := List.mem_filter.mp hrmem
            have htok : r.token ≠ tv := hfresh r (hrt ▸ hrin)
            have hxt : x.token = r.token := by
              by_cases hcase : (r.user_id == u.id) = true
              · rw [← hrx, if_pos hcase]
              · rw [← hrx, if_neg hcase]
            simp [hxt, htok]
          have h2 : (([AuthService.newRefreshRow u.id (some fpF) now tv].map
              (fun r => if r.user_id == u.id then { r with revoked := true } else r)).filter
              (fun r => r.token == tv && r.revoked == false)) = [] := by
            simp [AuthService.newRefreshRow]
          rw [h1, h2]
          rfl
        rw [hnil]

/-- Witness for C4: the sample student's round trip through fingerprints
"fp-one" and "fp-two". -/
theorem fingerprint_binding_round_trip_witness :
    (runValidateDevice dbAfterFirstLogin
      (some { userId := sampleStudent.id, role := sampleStudent.role,
              deviceId := sampleTokens.access.deviceId })
      (some "fp-one") = (dbAfterFirstLogin, .allow)) ∧
    (runValidateDevice dbAfterFirstLogin
      (some { userId := sampleStudent.id, role := sampleStudent.role,
              deviceId := sampleTokens.access.deviceId })
      (some "fp-two") = (revokeUserTokens dbAfterFirstLogin sampleStudent.id, .deny)) ∧
    (AuthService.refreshAccessToken
      (revokeUserTokens dbAfterFirstLogin sampleStudent.id) 999
      sampleTokens.refreshPayload sampleTokens.refreshValue
      = .error .sessionExpired) :=
  fingerprint_binding_round_trip dbFreshStudent 0 999 "s@example.com" "tok-one"
    "fp-one" "fp-two" sampleStudent dbAfterFirstLogin sampleTokens
    (by decide) (by decide) (by decide) (by decide) (by decide) (by decide)
    (by decide) (by decide)

end ASAcademy
